import Mathlib

/-!
Shallow embedding of the MCP23S08 GPIO-expander driver (blocking face
`src/mcp23s08.rs`, suspending face `src/mcp23s08async.rs`).

The SPI transport is modelled environmentally: each bus transaction the
driver issues is recorded in a trace, and the transport's response to
each transaction is passed in explicitly (one `SpiResp` argument per
transaction the operation can issue).  Machine bytes (`u8`) are `Nat`
values; where a claim needs the 8-bit bound it is stated explicitly.
Both Rust files declare structurally identical copies of `Error`, `Pin`,
`Polarity`, `InterruptMode` and `Reg`; the embedding shares one Lean
definition for each of those.
-/

/-- One phase of an SPI bus transaction: `Operation::Write(bytes)` or
`Operation::Read(buffer of given length)`. -/
inductive SpiOp where
  | write (bytes : List Nat)
  | read (len : Nat)
deriving DecidableEq, Repr

/-- One bus transaction: the list of operations passed to
`SpiDevice::transaction` (a single chip-select assertion). -/
abbrev Txn := List SpiOp

/-- The transport's response to one transaction: an error code, or success
together with the bytes the transport deposited into the read buffers. -/
inductive SpiResp where
  | err (e : Nat)
  | ok (bytes : List Nat)
deriving DecidableEq, Repr

/-- `enum Error<SpiE> { Spi(SpiE), BadAddress }` with the transport error
modelled as a numeric code. -/
inductive Error where
  | Spi (e : Nat)
  | BadAddress
deriving DecidableEq, Repr

/-- `enum Pin { P0, ..., P7 }`. -/
inductive Pin where
  | P0 | P1 | P2 | P3 | P4 | P5 | P6 | P7
deriving DecidableEq, Repr, Fintype

/-- The discriminant `self as u8` of a `Pin`. -/
def Pin.idx : Pin → Nat
  | .P0 => 0
  | .P1 => 1
  | .P2 => 2
  | .P3 => 3
  | .P4 => 4
  | .P5 => 5
  | .P6 => 6
  | .P7 => 7

/-- `Pin::bit`: `1u8 << (self as u8)`. -/
def Pin.bit (p : Pin) : Nat := 1 <<< p.idx

/-- `enum Polarity { Normal, Inverted }`. -/
inductive Polarity where
  | Normal | Inverted
deriving DecidableEq, Repr, Fintype

/-- `enum InterruptMode { OnChange, CompareToDefault }`. -/
inductive InterruptMode where
  | OnChange | CompareToDefault
deriving DecidableEq, Repr, Fintype

/-- `enum Reg` with its `repr(u8)` discriminants (the Rust name of the
0x09 register ends in letters the Lean development cannot use as an
identifier suffix, so it is rendered `Gpio`). -/
inductive Reg where
  | IODIR | IPOL | GPINTEN | DEFVAL | INTCON | IOCON | GPPU | INTF | INTCAP | Gpio | OLAT
deriving DecidableEq, Repr, Fintype

/-- The `repr(u8)` value `reg as u8`. -/
def Reg.toNat : Reg → Nat
  | .IODIR => 0x00
  | .IPOL => 0x01
  | .GPINTEN => 0x02
  | .DEFVAL => 0x03
  | .INTCON => 0x04
  | .IOCON => 0x05
  | .GPPU => 0x06
  | .INTF => 0x07
  | .INTCAP => 0x08
  | .Gpio => 0x09
  | .OLAT => 0x0A

/-- Bitwise complement of a byte: Rust `!b` at type `u8`. -/
def not8 (b : Nat) : Nat := b ^^^ 255

/-- `struct Mcp23s08` minus the owned transport (which is modelled
environmentally): hardware address and the two shadow bytes. -/
structure Mcp23s08 where
  hw_addr : Nat
  olat : Nat
  iodir : Nat
deriving DecidableEq, Repr

deriving instance DecidableEq for Except

/-- Outcome of running one driver operation: its result, the device state
afterwards, and the trace of bus transactions it issued (in order). -/
structure Step (δ : Type) (α : Type) where
  res : Except Error α
  dev : δ
  trace : List Txn
deriving DecidableEq, Repr

namespace Mcp23s08

/-- `opcode_write`: `0x40 | ((self.hw_addr & 0x03) << 1) | 0`. -/
def opcode_write (d : Mcp23s08) : Nat :=
  0x40 ||| ((d.hw_addr &&& 0x03) <<< 1) ||| 0

/-- `opcode_read`: `0x40 | ((self.hw_addr & 0x03) << 1) | 1`. -/
def opcode_read (d : Mcp23s08) : Nat :=
  0x40 ||| ((d.hw_addr &&& 0x03) <<< 1) ||| 1

/-- `write_reg`: one transaction `[Operation::Write([opcode, reg, val])]`. -/
def write_reg (d : Mcp23s08) (reg : Reg) (val : Nat) (r : SpiResp) :
    Step Mcp23s08 Unit :=
  match r with
  | .err e => ⟨.error (.Spi e), d, [[SpiOp.write [d.opcode_write, reg.toNat, val]]]⟩
  | .ok _ => ⟨.ok (), d, [[SpiOp.write [d.opcode_write, reg.toNat, val]]]⟩

/-- `read_reg`: one transaction `[Operation::Write([opcode, reg]),
Operation::Read(byte)]`; the read buffer starts as `[0u8]`, so on success
the returned byte is the first transport-deposited byte, defaulting to 0. -/
def read_reg (d : Mcp23s08) (reg : Reg) (r : SpiResp) : Step Mcp23s08 Nat :=
  match r with
  | .err e => ⟨.error (.Spi e), d, [[SpiOp.write [d.opcode_read, reg.toNat], SpiOp.read 1]]⟩
  | .ok bytes => ⟨.ok (bytes.headD 0), d, [[SpiOp.write [d.opcode_read, reg.toNat], SpiOp.read 1]]⟩

/-- `Mcp23s08::new`: address check, then write IOCON=0x00, read IODIR into
the direction shadow, read OLAT into the output shadow. -/
def new (hw_addr : Nat) (r1 r2 r3 : SpiResp) : Except Error Mcp23s08 × List Txn :=
  if hw_addr > 3 then (.error .BadAddress, [])
  else
    let this0 : Mcp23s08 := ⟨hw_addr, 0x00, 0xFF⟩
    let s1 := this0.write_reg .IOCON 0x00 r1
    match s1.res with
    | .error e => (.error e, s1.trace)
    | .ok _ =>
      let s2 := s1.dev.read_reg .IODIR r2
      match s2.res with
      | .error e => (.error e, s1.trace ++ s2.trace)
      | .ok dirb =>
        let d2 := { s2.dev with iodir := dirb }
        let s3 := d2.read_reg .OLAT r3
        match s3.res with
        | .error e => (.error e, s1.trace ++ s2.trace ++ s3.trace)
        | .ok olb => (.ok { d2 with olat := olb }, s1.trace ++ s2.trace ++ s3.trace)

/-- `set_pin_direction`: mutate the `iodir` shadow, then write IODIR. -/
def set_pin_direction (d : Mcp23s08) (pin : Pin) (input : Bool) (r : SpiResp) :
    Step Mcp23s08 Unit :=
  let d' := if input then { d with iodir := d.iodir ||| pin.bit }
            else { d with iodir := d.iodir &&& not8 pin.bit }
  d'.write_reg .IODIR d'.iodir r

/-- `set_port_direction`: set the `iodir` shadow to `mask`, write IODIR. -/
def set_port_direction (d : Mcp23s08) (mask : Nat) (r : SpiResp) :
    Step Mcp23s08 Unit :=
  let d' := { d with iodir := mask }
  d'.write_reg .IODIR mask r

/-- `set_pin_pullup`: read GPPU, set/clear the pin's bit, write GPPU. -/
def set_pin_pullup (d : Mcp23s08) (pin : Pin) (enable : Bool) (r1 r2 : SpiResp) :
    Step Mcp23s08 Unit :=
  let s1 := d.read_reg .GPPU r1
  match s1.res with
  | .error e => ⟨.error e, s1.dev, s1.trace⟩
  | .ok gppu =>
    let gppu' := if enable then gppu ||| pin.bit else gppu &&& not8 pin.bit
    let s2 := s1.dev.write_reg .GPPU gppu' r2
    ⟨s2.res, s2.dev, s1.trace ++ s2.trace⟩

/-- `set_port_pullups`: write GPPU with the mask. -/
def set_port_pullups (d : Mcp23s08) (mask : Nat) (r : SpiResp) :
    Step Mcp23s08 Unit :=
  d.write_reg .GPPU mask r

/-- `set_pin_polarity`: read IPOL, clear the bit for `Normal` / set it for
`Inverted`, write IPOL. -/
def set_pin_polarity (d : Mcp23s08) (pin : Pin) (pol : Polarity) (r1 r2 : SpiResp) :
    Step Mcp23s08 Unit :=
  let s1 := d.read_reg .IPOL r1
  match s1.res with
  | .error e => ⟨.error e, s1.dev, s1.trace⟩
  | .ok ipol =>
    let ipol' := match pol with
      | .Normal => ipol &&& not8 pin.bit
      | .Inverted => ipol ||| pin.bit
    let s2 := s1.dev.write_reg .IPOL ipol' r2
    ⟨s2.res, s2.dev, s1.trace ++ s2.trace⟩

/-- `read_port`: read the GPIO register. -/
def read_port (d : Mcp23s08) (r : SpiResp) : Step Mcp23s08 Nat :=
  d.read_reg .Gpio r

/-- `read_pin`: `read_port()? & pin.bit() != 0`. -/
def read_pin (d : Mcp23s08) (pin : Pin) (r : SpiResp) : Step Mcp23s08 Bool :=
  let s := d.read_port r
  match s.res with
  | .error e => ⟨.error e, s.dev, s.trace⟩
  | .ok b => ⟨.ok (b &&& pin.bit != 0), s.dev, s.trace⟩

/-- `write_port`: set the `olat` shadow to `value`, write GPIO. -/
def write_port (d : Mcp23s08) (value : Nat) (r : SpiResp) : Step Mcp23s08 Unit :=
  let d' := { d with olat := value }
  d'.write_reg .Gpio value r

/-- `write_pin`: set/clear the pin's bit in the `olat` shadow, then write
GPIO with the new shadow. -/
def write_pin (d : Mcp23s08) (pin : Pin) (high : Bool) (r : SpiResp) :
    Step Mcp23s08 Unit :=
  let d' := if high then { d with olat := d.olat ||| pin.bit }
            else { d with olat := d.olat &&& not8 pin.bit }
  d'.write_reg .Gpio d'.olat r

/-- `write_olat`: set the `olat` shadow to `value`, write OLAT. -/
def write_olat (d : Mcp23s08) (value : Nat) (r : SpiResp) : Step Mcp23s08 Unit :=
  let d' := { d with olat := value }
  d'.write_reg .OLAT value r

/-- `set_pin_interrupt_enable`: read GPINTEN, set/clear the bit, write back. -/
def set_pin_interrupt_enable (d : Mcp23s08) (pin : Pin) (enable : Bool)
    (r1 r2 : SpiResp) : Step Mcp23s08 Unit :=
  let s1 := d.read_reg .GPINTEN r1
  match s1.res with
  | .error e => ⟨.error e, s1.dev, s1.trace⟩
  | .ok gpinten =>
    let gpinten' := if enable then gpinten ||| pin.bit else gpinten &&& not8 pin.bit
    let s2 := s1.dev.write_reg .GPINTEN gpinten' r2
    ⟨s2.res, s2.dev, s1.trace ++ s2.trace⟩

/-- `set_port_interrupt_enable`: write GPINTEN with the mask. -/
def set_port_interrupt_enable (d : Mcp23s08) (mask : Nat) (r : SpiResp) :
    Step Mcp23s08 Unit :=
  d.write_reg .GPINTEN mask r

/-- `set_pin_interrupt_mode`: read INTCON, clear the bit for `OnChange` /
set it for `CompareToDefault`, write back. -/
def set_pin_interrupt_mode (d : Mcp23s08) (pin : Pin) (mode : InterruptMode)
    (r1 r2 : SpiResp) : Step Mcp23s08 Unit :=
  let s1 := d.read_reg .INTCON r1
  match s1.res with
  | .error e => ⟨.error e, s1.dev, s1.trace⟩
  | .ok intcon =>
    let intcon' := match mode with
      | .OnChange => intcon &&& not8 pin.bit
      | .CompareToDefault => intcon ||| pin.bit
    let s2 := s1.dev.write_reg .INTCON intcon' r2
    ⟨s2.res, s2.dev, s1.trace ++ s2.trace⟩

/-- `set_port_interrupt_mode`: write INTCON with the mask. -/
def set_port_interrupt_mode (d : Mcp23s08) (mask : Nat) (r : SpiResp) :
    Step Mcp23s08 Unit :=
  d.write_reg .INTCON mask r

/-- `set_port_default_compare`: write DEFVAL. -/
def set_port_default_compare (d : Mcp23s08) (defval : Nat) (r : SpiResp) :
    Step Mcp23s08 Unit :=
  d.write_reg .DEFVAL defval r

/-- `read_interrupt_flags`: read INTF. -/
def read_interrupt_flags (d : Mcp23s08) (r : SpiResp) : Step Mcp23s08 Nat :=
  d.read_reg .INTF r

/-- `read_interrupt_capture`: read INTCAP. -/
def read_interrupt_capture (d : Mcp23s08) (r : SpiResp) : Step Mcp23s08 Nat :=
  d.read_reg .INTCAP r

/-- `clear_interrupts`: read the GPIO register. -/
def clear_interrupts (d : Mcp23s08) (r : SpiResp) : Step Mcp23s08 Nat :=
  d.read_reg .Gpio r

/-- `set_int_open_drain`: read IOCON, set/clear bit 2 (ODR), write back. -/
def set_int_open_drain (d : Mcp23s08) (enable : Bool) (r1 r2 : SpiResp) :
    Step Mcp23s08 Unit :=
  let s1 := d.read_reg .IOCON r1
  match s1.res with
  | .error e => ⟨.error e, s1.dev, s1.trace⟩
  | .ok iocon =>
    let iocon' := if enable then iocon ||| (1 <<< 2) else iocon &&& not8 (1 <<< 2)
    let s2 := s1.dev.write_reg .IOCON iocon' r2
    ⟨s2.res, s2.dev, s1.trace ++ s2.trace⟩

/-- `set_int_polarity`: read IOCON, set/clear bit 1 (INTPOL), write back. -/
def set_int_polarity (d : Mcp23s08) (active_high : Bool) (r1 r2 : SpiResp) :
    Step Mcp23s08 Unit :=
  let s1 := d.read_reg .IOCON r1
  match s1.res with
  | .error e => ⟨.error e, s1.dev, s1.trace⟩
  | .ok iocon =>
    let iocon' := if active_high then iocon ||| (1 <<< 1) else iocon &&& not8 (1 <<< 1)
    let s2 := s1.dev.write_reg .IOCON iocon' r2
    ⟨s2.res, s2.dev, s1.trace ++ s2.trace⟩

/-- Public methods of `impl Mcp23s08`, in source order (the API surface of
the blocking device handle). -/
def public_methods : List String :=
  ["new", "set_pin_direction", "set_port_direction", "set_pin_pullup",
   "set_port_pullups", "set_pin_polarity", "read_port", "read_pin",
   "write_port", "write_pin", "write_olat", "set_pin_interrupt_enable",
   "set_port_interrupt_enable", "set_pin_interrupt_mode",
   "set_port_interrupt_mode", "set_port_default_compare",
   "read_interrupt_flags", "read_interrupt_capture", "clear_interrupts",
   "set_int_open_drain", "set_int_polarity", "pin", "into_inner"]

end Mcp23s08

namespace GpioPin

/-- `GpioPin::toggle` (blocking face): read the pin's current input state
from the GPIO register, then write the complement through `write_pin`. -/
def toggle (d : Mcp23s08) (pin : Pin) (r1 r2 : SpiResp) : Step Mcp23s08 Unit :=
  let s1 := d.read_pin pin r1
  match s1.res with
  | .error e => ⟨.error e, s1.dev, s1.trace⟩
  | .ok current =>
    let s2 := s1.dev.write_pin pin (!current) r2
    ⟨s2.res, s2.dev, s1.trace ++ s2.trace⟩

end GpioPin

/-- The 3-byte write frame for register `reg` with value `v`, as one
transaction (matches `Mcp23s08.write_reg`'s framing definitionally). -/
def write_txn (d : Mcp23s08) (reg : Reg) (v : Nat) : Txn :=
  [SpiOp.write [d.opcode_write, reg.toNat, v]]

/-- The read transaction for register `reg`: 2-byte command then a 1-byte
read, within one transaction (matches `Mcp23s08.read_reg`'s framing). -/
def read_txn (d : Mcp23s08) (reg : Reg) : Txn :=
  [SpiOp.write [d.opcode_read, reg.toNat], SpiOp.read 1]

/-- `struct Mcp23s08async` minus the owned transport: hardware address and
the two shadow bytes (`src/mcp23s08async.rs`). -/
structure Mcp23s08async where
  hw_addr : Nat
  olat : Nat
  iodir : Nat
deriving DecidableEq, Repr

/-- Field-for-field correspondence between the suspending and blocking
device states (both structs have exactly these three modelled fields). -/
def Mcp23s08async.toSync (a : Mcp23s08async) : Mcp23s08 :=
  ⟨a.hw_addr, a.olat, a.iodir⟩

namespace Mcp23s08async

/-- Async `opcode_write`: `0x40 | ((self.hw_addr & 0x03) << 1)` (the async
source omits the trailing `| 0`). -/
def opcode_write (d : Mcp23s08async) : Nat :=
  0x40 ||| ((d.hw_addr &&& 0x03) <<< 1)

/-- Async `opcode_read`: `0x40 | ((self.hw_addr & 0x03) << 1) | 1`. -/
def opcode_read (d : Mcp23s08async) : Nat :=
  0x40 ||| ((d.hw_addr &&& 0x03) <<< 1) ||| 1

/-- Async `write_reg` (suspension washes out in the embedding: one framed
transaction, one response). -/
def write_reg (d : Mcp23s08async) (reg : Reg) (val : Nat) (r : SpiResp) :
    Step Mcp23s08async Unit :=
  match r with
  | .err e => ⟨.error (.Spi e), d, [[SpiOp.write [d.opcode_write, reg.toNat, val]]]⟩
  | .ok _ => ⟨.ok (), d, [[SpiOp.write [d.opcode_write, reg.toNat, val]]]⟩

/-- Async `read_reg`. -/
def read_reg (d : Mcp23s08async) (reg : Reg) (r : SpiResp) : Step Mcp23s08async Nat :=
  match r with
  | .err e => ⟨.error (.Spi e), d, [[SpiOp.write [d.opcode_read, reg.toNat], SpiOp.read 1]]⟩
  | .ok bytes => ⟨.ok (bytes.headD 0), d, [[SpiOp.write [d.opcode_read, reg.toNat], SpiOp.read 1]]⟩

/-- Async `Mcp23s08async::new`. -/
def new (hw_addr : Nat) (r1 r2 r3 : SpiResp) : Except Error Mcp23s08async × List Txn :=
  if hw_addr > 3 then (.error .BadAddress, [])
  else
    let this0 : Mcp23s08async := ⟨hw_addr, 0x00, 0xFF⟩
    let s1 := this0.write_reg .IOCON 0x00 r1
    match s1.res with
    | .error e => (.error e, s1.trace)
    | .ok _ =>
      let s2 := s1.dev.read_reg .IODIR r2
      match s2.res with
      | .error e => (.error e, s1.trace ++ s2.trace)
      | .ok dirb =>
        let d2 := { s2.dev with iodir := dirb }
        let s3 := d2.read_reg .OLAT r3
        match s3.res with
        | .error e => (.error e, s1.trace ++ s2.trace ++ s3.trace)
        | .ok olb => (.ok { d2 with olat := olb }, s1.trace ++ s2.trace ++ s3.trace)

/-- Async `set_pin_direction`. -/
def set_pin_direction (d : Mcp23s08async) (pin : Pin) (input : Bool) (r : SpiResp) :
    Step Mcp23s08async Unit :=
  let d' := if input then { d with iodir := d.iodir ||| pin.bit }
            else { d with iodir := d.iodir &&& not8 pin.bit }
  d'.write_reg .IODIR d'.iodir r

/-- Async `set_port_direction`. -/
def set_port_direction (d : Mcp23s08async) (mask : Nat) (r : SpiResp) :
    Step Mcp23s08async Unit :=
  let d' := { d with iodir := mask }
  d'.write_reg .IODIR mask r

/-- Async `set_pin_pullup`. -/
def set_pin_pullup (d : Mcp23s08async) (pin : Pin) (enable : Bool) (r1 r2 : SpiResp) :
    Step Mcp23s08async Unit :=
  let s1 := d.read_reg .GPPU r1
  match s1.res with
  | .error e => ⟨.error e, s1.dev, s1.trace⟩
  | .ok gppu =>
    let gppu' := if enable then gppu ||| pin.bit else gppu &&& not8 pin.bit
    let s2 := s1.dev.write_reg .GPPU gppu' r2
    ⟨s2.res, s2.dev, s1.trace ++ s2.trace⟩

/-- Async `set_port_pullups`. -/
def set_port_pullups (d : Mcp23s08async) (mask : Nat) (r : SpiResp) :
    Step Mcp23s08async Unit :=
  d.write_reg .GPPU mask r

/-- Async `set_pin_polarity`. -/
def set_pin_polarity (d : Mcp23s08async) (pin : Pin) (pol : Polarity) (r1 r2 : SpiResp) :
    Step Mcp23s08async Unit :=
  let s1 := d.read_reg .IPOL r1
  match s1.res with
  | .error e => ⟨.error e, s1.dev, s1.trace⟩
  | .ok ipol =>
    let ipol' := match pol with
      | .Normal => ipol &&& not8 pin.bit
      | .Inverted => ipol ||| pin.bit
    let s2 := s1.dev.write_reg .IPOL ipol' r2
    ⟨s2.res, s2.dev, s1.trace ++ s2.trace⟩

/-- Async `read_port`. -/
def read_port (d : Mcp23s08async) (r : SpiResp) : Step Mcp23s08async Nat :=
  d.read_reg .Gpio r

/-- Async `read_pin`. -/
def read_pin (d : Mcp23s08async) (pin : Pin) (r : SpiResp) : Step Mcp23s08async Bool :=
  let s := d.read_port r
  match s.res with
  | .error e => ⟨.error e, s.dev, s.trace⟩
  | .ok b => ⟨.ok (b &&& pin.bit != 0), s.dev, s.trace⟩

/-- Async `write_port`. -/
def write_port (d : Mcp23s08async) (value : Nat) (r : SpiResp) : Step Mcp23s08async Unit :=
  let d' := { d with olat := value }
  d'.write_reg .Gpio value r

/-- Async `write_pin`. -/
def write_pin (d : Mcp23s08async) (pin : Pin) (high : Bool) (r : SpiResp) :
    Step Mcp23s08async Unit :=
  let d' := if high then { d with olat := d.olat ||| pin.bit }
            else { d with olat := d.olat &&& not8 pin.bit }
  d'.write_reg .Gpio d'.olat r

/-- Async `write_olat`. -/
def write_olat (d : Mcp23s08async) (value : Nat) (r : SpiResp) : Step Mcp23s08async Unit :=
  let d' := { d with olat := value }
  d'.write_reg .OLAT value r

/-- Async `set_pin_interrupt_enable`. -/
def set_pin_interrupt_enable (d : Mcp23s08async) (pin : Pin) (enable : Bool)
    (r1 r2 : SpiResp) : Step Mcp23s08async Unit :=
  let s1 := d.read_reg .GPINTEN r1
  match s1.res with
  | .error e => ⟨.error e, s1.dev, s1.trace⟩
  | .ok gpinten =>
    let gpinten' := if enable then gpinten ||| pin.bit else gpinten &&& not8 pin.bit
    let s2 := s1.dev.write_reg .GPINTEN gpinten' r2
    ⟨s2.res, s2.dev, s1.trace ++ s2.trace⟩

/-- Async `set_port_interrupt_enable`. -/
def set_port_interrupt_enable (d : Mcp23s08async) (mask : Nat) (r : SpiResp) :
    Step Mcp23s08async Unit :=
  d.write_reg .GPINTEN mask r

/-- Async `set_pin_interrupt_mode`. -/
def set_pin_interrupt_mode (d : Mcp23s08async) (pin : Pin) (mode : InterruptMode)
    (r1 r2 : SpiResp) : Step Mcp23s08async Unit :=
  let s1 := d.read_reg .INTCON r1
  match s1.res with
  | .error e => ⟨.error e, s1.dev, s1.trace⟩
  | .ok intcon =>
    let intcon' := match mode with
      | .OnChange => intcon &&& not8 pin.bit
      | .CompareToDefault => intcon ||| pin.bit
    let s2 := s1.dev.write_reg .INTCON intcon' r2
    ⟨s2.res, s2.dev, s1.trace ++ s2.trace⟩

/-- Public methods of `impl Mcp23s08async`, in source order (the API
surface of the suspending device handle). -/
def public_methods : List String :=
  ["new", "pin", "set_pin_direction", "set_port_direction", "set_pin_pullup",
   "set_port_pullups", "set_pin_polarity", "read_port", "read_pin",
   "write_port", "write_pin", "write_olat", "set_pin_interrupt_enable",
   "set_port_interrupt_enable", "set_pin_interrupt_mode"]

end Mcp23s08async

/-- Relation used to compare the two faces: same result, corresponding
device state, identical transaction trace. -/
def stepEq {α : Type} (s : Step Mcp23s08async α) (t : Step Mcp23s08 α) : Prop :=
  s.res = t.res ∧ s.dev.toSync = t.dev ∧ s.trace = t.trace

/-- Every pin index is below 8. -/
theorem Pin.idx_lt_eight (p : Pin) : p.idx < 8 := by cases p <;> decide

/-- The byte 255 has exactly its low 8 bits set. -/
theorem testBit_255 (i : Nat) : (255 : Nat).testBit i = decide (i < 8) := by
  have h : (255 : Nat) = 2 ^ 8 - 1 := by norm_num
  rw [h, Nat.testBit_two_pow_sub_one]

/-- Setting (`b = true`) or clearing (`b = false`) bit `k` of a byte `g`
changes exactly bit `k` and leaves every other bit of `g` alone. -/
theorem update_testBit (g k : Nat) (b : Bool) (hg : g < 256) (hk : k < 8) (i : Nat) :
    (if b then g ||| (1 <<< k) else g &&& not8 (1 <<< k)).testBit i
      = if i = k then b else g.testBit i := by
  have h1 : (1 <<< k : Nat) = 2 ^ k := Nat.one_shiftLeft k
  cases b <;> rcases eq_or_ne i k with hik | hik
  · subst hik
    simp [not8, h1, Nat.testBit_and, Nat.testBit_xor, @Nat.testBit_two_pow_self i,
      testBit_255, hk]
  · by_cases hi8 : i < 8
    · simp [not8, h1, Nat.testBit_and, Nat.testBit_xor,
        Nat.testBit_two_pow_of_ne (Ne.symm hik), testBit_255, hi8, hik]
    · have hgi : g.testBit i = false := by
        apply Nat.testBit_eq_false_of_lt
        calc g < 256 := hg
          _ = 2 ^ 8 := by norm_num
          _ ≤ 2 ^ i := Nat.pow_le_pow_right (by norm_num) (le_of_not_lt hi8)
      simp [not8, h1, Nat.testBit_and, Nat.testBit_xor,
        Nat.testBit_two_pow_of_ne (Ne.symm hik), testBit_255, hi8, hik, hgi]
  · subst hik
    simp [h1, Nat.testBit_or, @Nat.testBit_two_pow_self i]
  · simp [Nat.testBit_or, h1, Nat.testBit_two_pow_of_ne (Ne.symm hik), hik]

/-- Bit `k` itself lands at the requested value, with no bound on `g`. -/
theorem update_testBit_self (g k : Nat) (b : Bool) (hk : k < 8) :
    (if b then g ||| (1 <<< k) else g &&& not8 (1 <<< k)).testBit k = b := by
  cases b
  · simp [not8, Nat.one_shiftLeft, Nat.testBit_and, Nat.testBit_xor,
      @Nat.testBit_two_pow_self k, testBit_255, hk]
  · simp [Nat.testBit_or, Nat.one_shiftLeft, @Nat.testBit_two_pow_self k]

/-- Masking a valid hardware address with `0x03` is the identity. -/
theorem land_three_of_lt (hw : Nat) (h : hw < 4) : hw &&& 3 = hw := by
  interval_cases hw <;> rfl

/-- `write_reg` never touches the device state. -/
theorem Mcp23s08.write_reg_dev (d : Mcp23s08) (reg : Reg) (v : Nat) (r : SpiResp) :
    (d.write_reg reg v r).dev = d := by cases r <;> rfl

/-- `read_reg` never touches the device state. -/
theorem Mcp23s08.read_reg_dev (d : Mcp23s08) (reg : Reg) (r : SpiResp) :
    (d.read_reg reg r).dev = d := by cases r <;> rfl

/-- Setting then clearing a clear bit of a byte gives back the byte. -/
theorem or_and_not8_self (a : Nat) (p : Pin) (ha : a < 256) (h : a &&& p.bit = 0) :
    (a ||| p.bit) &&& not8 p.bit = a := by
  have hbit : a.testBit p.idx = false := by
    have := congrArg (fun n => n.testBit p.idx) h
    simpa [Nat.testBit_and, Pin.bit, Nat.one_shiftLeft,
      @Nat.testBit_two_pow_self p.idx] using this
  apply Nat.eq_of_testBit_eq
  intro i
  rcases eq_or_ne i p.idx with hik | hik
  · subst hik
    simp [not8, Pin.bit, Nat.one_shiftLeft, Nat.testBit_and, Nat.testBit_or,
      Nat.testBit_xor, @Nat.testBit_two_pow_self p.idx, testBit_255,
      Pin.idx_lt_eight, hbit]
  · by_cases hi8 : i < 8
    · simp [not8, Pin.bit, Nat.one_shiftLeft, Nat.testBit_and, Nat.testBit_or,
        Nat.testBit_xor, Nat.testBit_two_pow_of_ne (Ne.symm hik), testBit_255, hi8]
    · have hai : a.testBit i = false := by
        apply Nat.testBit_eq_false_of_lt
        calc a < 256 := ha
          _ = 2 ^ 8 := by norm_num
          _ ≤ 2 ^ i := Nat.pow_le_pow_right (by norm_num) (le_of_not_lt hi8)
      simp [not8, Pin.bit, Nat.one_shiftLeft, Nat.testBit_and, Nat.testBit_or,
        Nat.testBit_xor, Nat.testBit_two_pow_of_ne (Ne.symm hik), testBit_255,
        hi8, hai]

/-- C2: for every hardware address greater than 3, construction fails with
the `BadAddress` (InvalidAddress) error and issues zero transport
transactions — the address check precedes any bus transaction. -/
theorem C2_new_rejects_bad_address (hw_addr : Nat) (h : hw_addr > 3)
    (r1 r2 r3 : SpiResp) :
    Mcp23s08.new hw_addr r1 r2 r3 = (.error .BadAddress, []) := by
  simp [Mcp23s08.new, h]

theorem C2_new_rejects_bad_address_witness :
    Mcp23s08.new 4 (.ok []) (.ok []) (.ok []) = (.error .BadAddress, []) :=
  C2_new_rejects_bad_address 4 (by decide) (.ok []) (.ok []) (.ok [])

/-- C3: for every hardware address in 0..=3, construction issues exactly
the three transactions write IOCON=0x00, read IODIR, read OLAT, in that
order; on success the handle's shadows equal the bytes the transport
returned for IODIR and OLAT; if any transaction fails, the transport
error propagates and no handle is returned. -/
theorem C3_new_in_range (hw : Nat) (h : hw < 4) (bs1 bs2 bs3 : List Nat) (e : Nat)
    (r2 r3 : SpiResp) :
    Mcp23s08.new hw (.ok bs1) (.ok bs2) (.ok bs3)
        = (.ok ⟨hw, bs3.headD 0, bs2.headD 0⟩,
           [[SpiOp.write [64 ||| hw <<< 1, 0x05, 0x00]],
            [SpiOp.write [64 ||| hw <<< 1 ||| 1, 0x00], SpiOp.read 1],
            [SpiOp.write [64 ||| hw <<< 1 ||| 1, 0x0A], SpiOp.read 1]])
    ∧ Mcp23s08.new hw (.err e) r2 r3
        = (.error (.Spi e), [[SpiOp.write [64 ||| hw <<< 1, 0x05, 0x00]]])
    ∧ Mcp23s08.new hw (.ok bs1) (.err e) r3
        = (.error (.Spi e),
           [[SpiOp.write [64 ||| hw <<< 1, 0x05, 0x00]],
            [SpiOp.write [64 ||| hw <<< 1 ||| 1, 0x00], SpiOp.read 1]])
    ∧ Mcp23s08.new hw (.ok bs1) (.ok bs2) (.err e)
        = (.error (.Spi e),
           [[SpiOp.write [64 ||| hw <<< 1, 0x05, 0x00]],
            [SpiOp.write [64 ||| hw <<< 1 ||| 1, 0x00], SpiOp.read 1],
            [SpiOp.write [64 ||| hw <<< 1 ||| 1, 0x0A], SpiOp.read 1]]) := by
  have h3 : hw &&& 3 = hw := land_three_of_lt hw h
  have hng : ¬ hw > 3 := by omega
  refine ⟨?_, ?_, ?_, ?_⟩ <;>
    simp [Mcp23s08.new, Mcp23s08.write_reg, Mcp23s08.read_reg, Reg.toNat,
      Mcp23s08.opcode_write, Mcp23s08.opcode_read, hng, h3, Nat.or_zero]

theorem C3_new_in_range_witness :
    Mcp23s08.new 0 (.ok [0xAB]) (.ok [0xCD]) (.ok [0xEF])
        = (.ok ⟨0, 0xEF, 0xCD⟩,
           [[SpiOp.write [0x40, 0x05, 0x00]],
            [SpiOp.write [0x41, 0x00], SpiOp.read 1],
            [SpiOp.write [0x41, 0x0A], SpiOp.read 1]]) :=
  (C3_new_in_range 0 (by decide) [0xAB] [0xCD] [0xEF] 0 (.ok []) (.ok [])).1

/-- C4: for every hardware address 0..=3 and every register, a register
write transmits exactly `[0x40 | (addr<<1) | 0, reg, value]` as one
transaction, a register read transmits `[0x40 | (addr<<1) | 1, reg]` and
receives one byte within the same transaction, and the register indices
are the documented 0x00..0x0A map. -/
theorem C4_wire_format :
    (∀ hw : Nat, hw < 4 → ∀ (osh dsh v : Nat) (r : Reg) (resp : SpiResp),
      (Mcp23s08.write_reg ⟨hw, osh, dsh⟩ r v resp).trace
          = [[SpiOp.write [64 ||| hw <<< 1, r.toNat, v]]]
      ∧ (Mcp23s08.read_reg ⟨hw, osh, dsh⟩ r resp).trace
          = [[SpiOp.write [64 ||| hw <<< 1 ||| 1, r.toNat], SpiOp.read 1]])
    ∧ Reg.toNat .IODIR = 0x00 ∧ Reg.toNat .IPOL = 0x01 ∧ Reg.toNat .GPINTEN = 0x02
    ∧ Reg.toNat .DEFVAL = 0x03 ∧ Reg.toNat .INTCON = 0x04 ∧ Reg.toNat .IOCON = 0x05
    ∧ Reg.toNat .GPPU = 0x06 ∧ Reg.toNat .INTF = 0x07 ∧ Reg.toNat .INTCAP = 0x08
    ∧ Reg.toNat .Gpio = 0x09 ∧ Reg.toNat .OLAT = 0x0A := by
  refine ⟨?_, rfl, rfl, rfl, rfl, rfl, rfl, rfl, rfl, rfl, rfl, rfl⟩
  intro hw h osh dsh v r resp
  have h3 : hw &&& 3 = hw := land_three_of_lt hw h
  cases resp <;> exact ⟨by
      simp [Mcp23s08.write_reg, Mcp23s08.opcode_write, h3, Nat.or_zero], by
      simp [Mcp23s08.read_reg, Mcp23s08.opcode_read, h3, Nat.or_zero]⟩

theorem C4_wire_format_witness :
    (Mcp23s08.write_reg ⟨1, 0, 0⟩ Reg.OLAT 0x55 (.ok [])).trace
        = [[SpiOp.write [0x42, 0x0A, 0x55]]]
    ∧ (Mcp23s08.read_reg ⟨1, 0, 0⟩ Reg.OLAT (.ok [])).trace
        = [[SpiOp.write [0x43, 0x0A], SpiOp.read 1]] :=
  C4_wire_format.1 1 (by decide) 0 0 0x55 Reg.OLAT (.ok [])

/-- C10: `clear_interrupts` is observationally identical to `read_port`
for every device state and transport response: one GPIO read transaction,
no shadow change, and the captured byte is returned on success. -/
theorem C10_clear_interrupts_eq_read_port :
    (∀ (d : Mcp23s08) (r : SpiResp), d.clear_interrupts r = d.read_port r)
    ∧ (∀ (d : Mcp23s08) (bs : List Nat),
        d.clear_interrupts (.ok bs) = ⟨.ok (bs.headD 0), d, [read_txn d .Gpio]⟩)
    ∧ (∀ (d : Mcp23s08) (e : Nat),
        d.clear_interrupts (.err e) = ⟨.error (.Spi e), d, [read_txn d .Gpio]⟩) :=
  ⟨fun _ _ => rfl, fun _ _ => rfl, fun _ _ => rfl⟩

/-- C1 counterexample: with direction shadow 0xFF, a failing
`set_pin_direction(P0, output)` surfaces the transport error yet leaves
the direction shadow at 0xFE — changed from its pre-call value 0xFF. -/
theorem C1_counterexample :
    (Mcp23s08.set_pin_direction ⟨0, 0, 0xFF⟩ Pin.P0 false (.err 0)).res
        = .error (.Spi 0)
    ∧ (Mcp23s08.set_pin_direction ⟨0, 0, 0xFF⟩ Pin.P0 false (.err 0)).dev.iodir = 0xFE
    ∧ (0xFE : Nat) ≠ 0xFF := by decide

/-- C1 amended: read and read-modify-write operations never mutate the
shadow fields (on any outcome, failure included); the five direct-write
operations commit the shadow before issuing the write transaction, so a
failed call leaves the same device state as a successful one (the new
intended shadow, not the pre-call value) while surfacing the error; the
suspending face behaves the same way. -/
theorem C1_shadow_mutation_discipline :
    (∀ (d : Mcp23s08) (p : Pin) (b : Bool) (r1 r2 : SpiResp),
        (d.set_pin_pullup p b r1 r2).dev = d)
    ∧ (∀ (d : Mcp23s08) (p : Pin) (pol : Polarity) (r1 r2 : SpiResp),
        (d.set_pin_polarity p pol r1 r2).dev = d)
    ∧ (∀ (d : Mcp23s08) (p : Pin) (b : Bool) (r1 r2 : SpiResp),
        (d.set_pin_interrupt_enable p b r1 r2).dev = d)
    ∧ (∀ (d : Mcp23s08) (p : Pin) (m : InterruptMode) (r1 r2 : SpiResp),
        (d.set_pin_interrupt_mode p m r1 r2).dev = d)
    ∧ (∀ (d : Mcp23s08) (b : Bool) (r1 r2 : SpiResp),
        (d.set_int_open_drain b r1 r2).dev = d)
    ∧ (∀ (d : Mcp23s08) (b : Bool) (r1 r2 : SpiResp),
        (d.set_int_polarity b r1 r2).dev = d)
    ∧ (∀ (d : Mcp23s08) (r : SpiResp), (d.read_port r).dev = d)
    ∧ (∀ (d : Mcp23s08) (p : Pin) (r : SpiResp), (d.read_pin p r).dev = d)
    ∧ (∀ (d : Mcp23s08) (r : SpiResp), (d.read_interrupt_flags r).dev = d)
    ∧ (∀ (d : Mcp23s08) (r : SpiResp), (d.read_interrupt_capture r).dev = d)
    ∧ (∀ (d : Mcp23s08) (r : SpiResp), (d.clear_interrupts r).dev = d)
    ∧ (∀ (d : Mcp23s08) (m : Nat) (r : SpiResp), (d.set_port_pullups m r).dev = d)
    ∧ (∀ (d : Mcp23s08) (m : Nat) (r : SpiResp), (d.set_port_interrupt_enable m r).dev = d)
    ∧ (∀ (d : Mcp23s08) (m : Nat) (r : SpiResp), (d.set_port_interrupt_mode m r).dev = d)
    ∧ (∀ (d : Mcp23s08) (m : Nat) (r : SpiResp), (d.set_port_default_compare m r).dev = d)
    ∧ (∀ (d : Mcp23s08) (p : Pin) (input : Bool) (e : Nat) (bs : List Nat),
        (d.set_pin_direction p input (.err e)).dev
            = (d.set_pin_direction p input (.ok bs)).dev
        ∧ (d.set_pin_direction p input (.err e)).res = .error (.Spi e))
    ∧ (∀ (d : Mcp23s08) (m e : Nat) (bs : List Nat),
        (d.set_port_direction m (.err e)).dev = (d.set_port_direction m (.ok bs)).dev
        ∧ (d.set_port_direction m (.err e)).res = .error (.Spi e))
    ∧ (∀ (d : Mcp23s08) (v e : Nat) (bs : List Nat),
        (d.write_port v (.err e)).dev = (d.write_port v (.ok bs)).dev
        ∧ (d.write_port v (.err e)).res = .error (.Spi e))
    ∧ (∀ (d : Mcp23s08) (p : Pin) (hi : Bool) (e : Nat) (bs : List Nat),
        (d.write_pin p hi (.err e)).dev = (d.write_pin p hi (.ok bs)).dev
        ∧ (d.write_pin p hi (.err e)).res = .error (.Spi e))
    ∧ (∀ (d : Mcp23s08) (v e : Nat) (bs : List Nat),
        (d.write_olat v (.err e)).dev = (d.write_olat v (.ok bs)).dev
        ∧ (d.write_olat v (.err e)).res = .error (.Spi e))
    ∧ (∀ (a : Mcp23s08async) (p : Pin) (b : Bool) (r1 r2 : SpiResp),
        (a.set_pin_pullup p b r1 r2).dev = a)
    ∧ (∀ (a : Mcp23s08async) (p : Pin) (pol : Polarity) (r1 r2 : SpiResp),
        (a.set_pin_polarity p pol r1 r2).dev = a)
    ∧ (∀ (a : Mcp23s08async) (p : Pin) (b : Bool) (r1 r2 : SpiResp),
        (a.set_pin_interrupt_enable p b r1 r2).dev = a)
    ∧ (∀ (a : Mcp23s08async) (p : Pin) (m : InterruptMode) (r1 r2 : SpiResp),
        (a.set_pin_interrupt_mode p m r1 r2).dev = a)
    ∧ (∀ (a : Mcp23s08async) (r : SpiResp), (a.read_port r).dev = a)
    ∧ (∀ (a : Mcp23s08async) (p : Pin) (r : SpiResp), (a.read_pin p r).dev = a)
    ∧ (∀ (a : Mcp23s08async) (m : Nat) (r : SpiResp), (a.set_port_pullups m r).dev = a)
    ∧ (∀ (a : Mcp23s08async) (m : Nat) (r : SpiResp),
        (a.set_port_interrupt_enable m r).dev = a)
    ∧ (∀ (a : Mcp23s08async) (p : Pin) (input : Bool) (e : Nat) (bs : List Nat),
        (a.set_pin_direction p input (.err e)).dev
            = (a.set_pin_direction p input (.ok bs)).dev
        ∧ (a.set_pin_direction p input (.err e)).res = .error (.Spi e))
    ∧ (∀ (a : Mcp23s08async) (m e : Nat) (bs : List Nat),
        (a.set_port_direction m (.err e)).dev = (a.set_port_direction m (.ok bs)).dev
        ∧ (a.set_port_direction m (.err e)).res = .error (.Spi e))
    ∧ (∀ (a : Mcp23s08async) (v e : Nat) (bs : List Nat),
        (a.write_port v (.err e)).dev = (a.write_port v (.ok bs)).dev
        ∧ (a.write_port v (.err e)).res = .error (.Spi e))
    ∧ (∀ (a : Mcp23s08async) (p : Pin) (hi : Bool) (e : Nat) (bs : List Nat),
        (a.write_pin p hi (.err e)).dev = (a.write_pin p hi (.ok bs)).dev
        ∧ (a.write_pin p hi (.err e)).res = .error (.Spi e))
    ∧ (∀ (a : Mcp23s08async) (v e : Nat) (bs : List Nat),
        (a.write_olat v (.err e)).dev = (a.write_olat v (.ok bs)).dev
        ∧ (a.write_olat v (.err e)).res = .error (.Spi e)) := by
  refine ⟨?_, ?_, ?_, ?_, ?_, ?_, ?_, ?_, ?_, ?_, ?_, ?_, ?_, ?_, ?_, ?_, ?_, ?_,
    ?_, ?_, ?_, ?_, ?_, ?_, ?_, ?_, ?_, ?_, ?_, ?_, ?_, ?_, ?_⟩ <;>
    intros <;>
    first
      | (rename_i r1 r2; cases r1 <;> cases r2 <;> rfl)
      | (rename_i r; cases r <;> rfl)
      | exact ⟨rfl, rfl⟩

/-- C5 counterexample: with prior direction shadow 0xFF,
`set_pin_direction(P0, input=true)` leaves the shadow at 0xFF — zero bits
change, so the result is not the prior shadow with exactly one bit
(the pin's bit) toggled, which would be 0xFE. -/
theorem C5_counterexample :
    (Mcp23s08.set_pin_direction ⟨0, 0, 0xFF⟩ Pin.P0 true (.ok [])).dev.iodir = 0xFF
    ∧ (0xFF : Nat) ≠ 0xFF ^^^ Pin.bit Pin.P0 := by decide

/-- C5 amended: `set_pin_direction` produces a direction shadow equal to
the prior shadow with the pin's bit forced to the requested direction
(all other bits unchanged; the bit only toggles when it differed), and
issues exactly one IODIR write transaction whose value byte is the new
shadow; the concrete 0xFF/P0/output example of the claim holds as
stated. -/
theorem C5_set_pin_direction_behavior :
    (∀ (hw osh : Nat) (dsh : Fin 256) (p : Pin) (input : Bool) (r : SpiResp),
      (Mcp23s08.set_pin_direction ⟨hw, osh, dsh⟩ p input r).trace
          = [write_txn ⟨hw, osh, dsh⟩ .IODIR
              (Mcp23s08.set_pin_direction ⟨hw, osh, dsh⟩ p input r).dev.iodir]
      ∧ (Mcp23s08.set_pin_direction ⟨hw, osh, dsh⟩ p input r).dev.hw_addr = hw
      ∧ (Mcp23s08.set_pin_direction ⟨hw, osh, dsh⟩ p input r).dev.olat = osh
      ∧ (∀ i : Nat,
          (Mcp23s08.set_pin_direction ⟨hw, osh, dsh⟩ p input r).dev.iodir.testBit i
            = if i = p.idx then input else (dsh : Nat).testBit i))
    ∧ Mcp23s08.set_pin_direction ⟨0, 0, 0xFF⟩ Pin.P0 false (.ok [])
        = ⟨.ok (), ⟨0, 0, 0xFE⟩, [[SpiOp.write [0x40, 0x00, 0xFE]]]⟩ := by
  constructor
  · intro hw osh dsh p input r
    refine ⟨?_, ?_, ?_, ?_⟩
    · cases input <;> cases r <;> rfl
    · cases input <;> cases r <;> rfl
    · cases input <;> cases r <;> rfl
    · intro i
      have hbit := update_testBit (dsh : Nat) p.idx input dsh.isLt
        (Pin.idx_lt_eight p) i
      cases input <;> cases r <;>
        simpa [Mcp23s08.set_pin_direction, Mcp23s08.write_reg, Pin.bit]
          using hbit
  · decide

/-- C7 counterexample: with prior output shadow 0xFF (P0's bit set),
`write_pin(P0, true)` then `write_pin(P0, false)` ends with shadow 0xFE,
not the pre-write 0xFF, and the second transaction writes 0xFE rather
than the prior value. -/
theorem C7_counterexample :
    ((Mcp23s08.write_pin ⟨0, 0xFF, 0⟩ Pin.P0 true (.ok [])).dev.write_pin
        Pin.P0 false (.ok [])).dev.olat = 0xFE
    ∧ (0xFE : Nat) ≠ 0xFF
    ∧ ((Mcp23s08.write_pin ⟨0, 0xFF, 0⟩ Pin.P0 true (.ok [])).dev.write_pin
        Pin.P0 false (.ok [])).trace = [[SpiOp.write [0x40, 0x09, 0xFE]]] := by
  decide

/-- C7 amended: for every pin `p` and every prior output shadow byte in
which `p`'s bit is clear, `write_pin(p, true)` then `write_pin(p, false)`
(both succeeding) restores the pre-write shadow and issues exactly two
GPIO write transactions with values `prior|mask` then `prior`. -/
theorem C7_write_pin_roundtrip (d : Mcp23s08) (p : Pin) (bs1 bs2 : List Nat)
    (h8 : d.olat < 256) (h0 : d.olat &&& p.bit = 0) :
    ((d.write_pin p true (.ok bs1)).dev.write_pin p false (.ok bs2)).dev.olat = d.olat
    ∧ (d.write_pin p true (.ok bs1)).res = .ok ()
    ∧ ((d.write_pin p true (.ok bs1)).dev.write_pin p false (.ok bs2)).res = .ok ()
    ∧ (d.write_pin p true (.ok bs1)).trace
        ++ ((d.write_pin p true (.ok bs1)).dev.write_pin p false (.ok bs2)).trace
        = [write_txn d .Gpio (d.olat ||| p.bit), write_txn d .Gpio d.olat] := by
  have key : (d.olat ||| p.bit) &&& not8 p.bit = d.olat :=
    or_and_not8_self d.olat p h8 h0
  refine ⟨?_, rfl, rfl, ?_⟩
  · simp [Mcp23s08.write_pin, Mcp23s08.write_reg, key]
  · simp [Mcp23s08.write_pin, Mcp23s08.write_reg, write_txn, key,
      Mcp23s08.opcode_write]

theorem C7_write_pin_roundtrip_witness :
    ((Mcp23s08.write_pin ⟨0, 0x0E, 0⟩ Pin.P0 true (.ok [])).dev.write_pin
        Pin.P0 false (.ok [])).dev.olat = 0x0E
    ∧ (Mcp23s08.write_pin ⟨0, 0x0E, 0⟩ Pin.P0 true (.ok [])).res = .ok ()
    ∧ ((Mcp23s08.write_pin ⟨0, 0x0E, 0⟩ Pin.P0 true (.ok [])).dev.write_pin
        Pin.P0 false (.ok [])).res = .ok ()
    ∧ (Mcp23s08.write_pin ⟨0, 0x0E, 0⟩ Pin.P0 true (.ok [])).trace
        ++ ((Mcp23s08.write_pin ⟨0, 0x0E, 0⟩ Pin.P0 true (.ok [])).dev.write_pin
            Pin.P0 false (.ok [])).trace
        = [write_txn ⟨0, 0x0E, 0⟩ .Gpio 0x0F, write_txn ⟨0, 0x0E, 0⟩ .Gpio 0x0E] :=
  C7_write_pin_roundtrip ⟨0, 0x0E, 0⟩ Pin.P0 [] [] (by decide) (by decide)

/-- C6: each read-modify-write operation issues exactly one read
transaction of its register followed by exactly one write transaction of
the same register whose value differs from the byte read only in the
targeted bit; a failure of the read (only one transaction issued) or of
the write surfaces the transport error and leaves the shadow fields (the
whole device state) untouched. -/
theorem C6_rmw_operations :
    (∀ (d : Mcp23s08) (p : Pin) (en : Bool) (bs bs2 : List Nat) (e : Nat) (r2 : SpiResp),
      d.set_pin_pullup p en (.ok bs) (.ok bs2)
          = ⟨.ok (), d, [read_txn d .GPPU, write_txn d .GPPU
              (if en then bs.headD 0 ||| p.bit else bs.headD 0 &&& not8 p.bit)]⟩
      ∧ d.set_pin_pullup p en (.err e) r2 = ⟨.error (.Spi e), d, [read_txn d .GPPU]⟩
      ∧ d.set_pin_pullup p en (.ok bs) (.err e)
          = ⟨.error (.Spi e), d, [read_txn d .GPPU, write_txn d .GPPU
              (if en then bs.headD 0 ||| p.bit else bs.headD 0 &&& not8 p.bit)]⟩)
    ∧ (∀ (d : Mcp23s08) (p : Pin) (pol : Polarity) (bs bs2 : List Nat) (e : Nat) (r2 : SpiResp),
      d.set_pin_polarity p pol (.ok bs) (.ok bs2)
          = ⟨.ok (), d, [read_txn d .IPOL, write_txn d .IPOL
              (match pol with
                | .Normal => bs.headD 0 &&& not8 p.bit
                | .Inverted => bs.headD 0 ||| p.bit)]⟩
      ∧ d.set_pin_polarity p pol (.err e) r2 = ⟨.error (.Spi e), d, [read_txn d .IPOL]⟩
      ∧ d.set_pin_polarity p pol (.ok bs) (.err e)
          = ⟨.error (.Spi e), d, [read_txn d .IPOL, write_txn d .IPOL
              (match pol with
                | .Normal => bs.headD 0 &&& not8 p.bit
                | .Inverted => bs.headD 0 ||| p.bit)]⟩)
    ∧ (∀ (d : Mcp23s08) (p : Pin) (en : Bool) (bs bs2 : List Nat) (e : Nat) (r2 : SpiResp),
      d.set_pin_interrupt_enable p en (.ok bs) (.ok bs2)
          = ⟨.ok (), d, [read_txn d .GPINTEN, write_txn d .GPINTEN
              (if en then bs.headD 0 ||| p.bit else bs.headD 0 &&& not8 p.bit)]⟩
      ∧ d.set_pin_interrupt_enable p en (.err e) r2
          = ⟨.error (.Spi e), d, [read_txn d .GPINTEN]⟩
      ∧ d.set_pin_interrupt_enable p en (.ok bs) (.err e)
          = ⟨.error (.Spi e), d, [read_txn d .GPINTEN, write_txn d .GPINTEN
              (if en then bs.headD 0 ||| p.bit else bs.headD 0 &&& not8 p.bit)]⟩)
    ∧ (∀ (d : Mcp23s08) (p : Pin) (md : InterruptMode) (bs bs2 : List Nat) (e : Nat) (r2 : SpiResp),
      d.set_pin_interrupt_mode p md (.ok bs) (.ok bs2)
          = ⟨.ok (), d, [read_txn d .INTCON, write_txn d .INTCON
              (match md with
                | .OnChange => bs.headD 0 &&& not8 p.bit
                | .CompareToDefault => bs.headD 0 ||| p.bit)]⟩
      ∧ d.set_pin_interrupt_mode p md (.err e) r2
          = ⟨.error (.Spi e), d, [read_txn d .INTCON]⟩
      ∧ d.set_pin_interrupt_mode p md (.ok bs) (.err e)
          = ⟨.error (.Spi e), d, [read_txn d .INTCON, write_txn d .INTCON
              (match md with
                | .OnChange => bs.headD 0 &&& not8 p.bit
                | .CompareToDefault => bs.headD 0 ||| p.bit)]⟩)
    ∧ (∀ (d : Mcp23s08) (b : Bool) (bs bs2 : List Nat) (e : Nat) (r2 : SpiResp),
      d.set_int_open_drain b (.ok bs) (.ok bs2)
          = ⟨.ok (), d, [read_txn d .IOCON, write_txn d .IOCON
              (if b then bs.headD 0 ||| 1 <<< 2 else bs.headD 0 &&& not8 (1 <<< 2))]⟩
      ∧ d.set_int_open_drain b (.err e) r2 = ⟨.error (.Spi e), d, [read_txn d .IOCON]⟩
      ∧ d.set_int_open_drain b (.ok bs) (.err e)
          = ⟨.error (.Spi e), d, [read_txn d .IOCON, write_txn d .IOCON
              (if b then bs.headD 0 ||| 1 <<< 2 else bs.headD 0 &&& not8 (1 <<< 2))]⟩)
    ∧ (∀ (d : Mcp23s08) (b : Bool) (bs bs2 : List Nat) (e : Nat) (r2 : SpiResp),
      d.set_int_polarity b (.ok bs) (.ok bs2)
          = ⟨.ok (), d, [read_txn d .IOCON, write_txn d .IOCON
              (if b then bs.headD 0 ||| 1 <<< 1 else bs.headD 0 &&& not8 (1 <<< 1))]⟩
      ∧ d.set_int_polarity b (.err e) r2 = ⟨.error (.Spi e), d, [read_txn d .IOCON]⟩
      ∧ d.set_int_polarity b (.ok bs) (.err e)
          = ⟨.error (.Spi e), d, [read_txn d .IOCON, write_txn d .IOCON
              (if b then bs.headD 0 ||| 1 <<< 1 else bs.headD 0 &&& not8 (1 <<< 1))]⟩)
    ∧ (∀ (g : Fin 256) (p : Pin) (en : Bool) (i : Nat),
        (if en then (g : Nat) ||| p.bit else (g : Nat) &&& not8 p.bit).testBit i
          = if i = p.idx then en else (g : Nat).testBit i)
    ∧ (∀ (g : Fin 256) (p : Pin) (pol : Polarity) (i : Nat),
        (match pol with
          | .Normal => (g : Nat) &&& not8 p.bit
          | .Inverted => (g : Nat) ||| p.bit).testBit i
          = if i = p.idx then decide (pol = .Inverted) else (g : Nat).testBit i)
    ∧ (∀ (g : Fin 256) (p : Pin) (md : InterruptMode) (i : Nat),
        (match md with
          | .OnChange => (g : Nat) &&& not8 p.bit
          | .CompareToDefault => (g : Nat) ||| p.bit).testBit i
          = if i = p.idx then decide (md = .CompareToDefault) else (g : Nat).testBit i)
    ∧ (∀ (g : Fin 256) (b : Bool) (i : Nat),
        (if b then (g : Nat) ||| 1 <<< 2 else (g : Nat) &&& not8 (1 <<< 2)).testBit i
          = if i = 2 then b else (g : Nat).testBit i)
    ∧ (∀ (g : Fin 256) (b : Bool) (i : Nat),
        (if b then (g : Nat) ||| 1 <<< 1 else (g : Nat) &&& not8 (1 <<< 1)).testBit i
          = if i = 1 then b else (g : Nat).testBit i) := by
  refine ⟨?_, ?_, ?_, ?_, ?_, ?_, ?_, ?_, ?_, ?_, ?_⟩
  · exact fun d p en bs bs2 e r2 => ⟨rfl, rfl, rfl⟩
  · exact fun d p pol bs bs2 e r2 => ⟨rfl, rfl, rfl⟩
  · exact fun d p en bs bs2 e r2 => ⟨rfl, rfl, rfl⟩
  · exact fun d p md bs bs2 e r2 => ⟨rfl, rfl, rfl⟩
  · exact fun d b bs bs2 e r2 => ⟨rfl, rfl, rfl⟩
  · exact fun d b bs bs2 e r2 => ⟨rfl, rfl, rfl⟩
  · intro g p en i
    simpa [Pin.bit] using update_testBit (g : Nat) p.idx en g.isLt (Pin.idx_lt_eight p) i
  · intro g p pol i
    cases pol
    · simpa [Pin.bit] using update_testBit (g : Nat) p.idx false g.isLt (Pin.idx_lt_eight p) i
    · simpa [Pin.bit] using update_testBit (g : Nat) p.idx true g.isLt (Pin.idx_lt_eight p) i
  · intro g p md i
    cases md
    · simpa [Pin.bit] using update_testBit (g : Nat) p.idx false g.isLt (Pin.idx_lt_eight p) i
    · simpa [Pin.bit] using update_testBit (g : Nat) p.idx true g.isLt (Pin.idx_lt_eight p) i
  · intro g b i
    simpa using update_testBit (g : Nat) 2 b g.isLt (by norm_num) i
  · intro g b i
    simpa using update_testBit (g : Nat) 1 b g.isLt (by norm_num) i

/-- C8: the pin capability's `toggle` first issues one read transaction of
the GPIO input register (no shadow query), then one GPIO write whose
value is the current output shadow with the pin's bit set to the
complement of the bit observed in that read — so the written bit is
determined by the input-state read, not by the prior shadow bit. -/
theorem C8_toggle_uses_input_read (d : Mcp23s08) (p : Pin) (bs : List Nat)
    (e : Nat) (r2 : SpiResp) :
    (GpioPin.toggle d p (.ok bs) r2).trace
        = [read_txn d .Gpio,
           write_txn d .Gpio (if !(bs.headD 0 &&& p.bit != 0) then d.olat ||| p.bit
                              else d.olat &&& not8 p.bit)]
    ∧ (GpioPin.toggle d p (.ok bs) r2).dev.olat
        = (if !(bs.headD 0 &&& p.bit != 0) then d.olat ||| p.bit
           else d.olat &&& not8 p.bit)
    ∧ (if !(bs.headD 0 &&& p.bit != 0) then d.olat ||| p.bit
       else d.olat &&& not8 p.bit).testBit p.idx = !(bs.headD 0 &&& p.bit != 0)
    ∧ GpioPin.toggle d p (.err e) r2 = ⟨.error (.Spi e), d, [read_txn d .Gpio]⟩ := by
  refine ⟨?_, ?_, ?_, ?_⟩
  · rcases eq_or_ne (bs.head?.getD 0 &&& p.bit) 0 with hc | hc <;> cases r2 <;>
      simp [GpioPin.toggle, Mcp23s08.read_pin, Mcp23s08.read_port,
        Mcp23s08.read_reg, Mcp23s08.write_pin, Mcp23s08.write_reg,
        Mcp23s08.opcode_write, Mcp23s08.opcode_read,
        read_txn, write_txn, hc]
  · rcases eq_or_ne (bs.head?.getD 0 &&& p.bit) 0 with hc | hc <;> cases r2 <;>
      simp [GpioPin.toggle, Mcp23s08.read_pin, Mcp23s08.read_port,
        Mcp23s08.read_reg, Mcp23s08.write_pin, Mcp23s08.write_reg, hc]
  · rcases eq_or_ne (bs.headD 0 &&& p.bit) 0 with hc | hc
    · have hb : (bs.headD 0 &&& p.bit != 0) = false := by simpa using hc
      rw [hb]
      simpa [Pin.bit] using update_testBit_self d.olat p.idx true (Pin.idx_lt_eight p)
    · have hb : (bs.headD 0 &&& p.bit != 0) = true := by simpa using hc
      rw [hb]
      simpa [Pin.bit] using update_testBit_self d.olat p.idx false (Pin.idx_lt_eight p)
  · cases r2 <;> rfl

/-- The two faces compute the same write opcode (the blocking source adds
a redundant `| 0`). -/
theorem Mcp23s08async.opcode_write_toSync (a : Mcp23s08async) :
    a.opcode_write = a.toSync.opcode_write := by
  simp [Mcp23s08async.opcode_write, Mcp23s08.opcode_write, Mcp23s08async.toSync,
    Nat.or_zero]

/-- C9 counterexample: the two faces do not expose the same set of
operations — `clear_interrupts` exists on the blocking device handle but
not on the suspending one (likewise `set_port_interrupt_mode`,
`set_port_default_compare`, `read_interrupt_flags`,
`read_interrupt_capture`, `set_int_open_drain`, `set_int_polarity` and
`into_inner`). -/
theorem C9_counterexample :
    "clear_interrupts" ∈ Mcp23s08.public_methods
    ∧ "clear_interrupts" ∉ Mcp23s08async.public_methods
    ∧ "set_int_open_drain" ∈ Mcp23s08.public_methods
    ∧ "set_int_open_drain" ∉ Mcp23s08async.public_methods := by
  refine ⟨by decide, by decide, by decide, by decide⟩

/-- C9 amended: every operation present on both faces is semantically
identical — for every device state and every sequence of transport
responses, the blocking and suspending versions issue the same
transactions, return the same result, and leave corresponding shadow
state; the blocking face additionally exposes operations the suspending
face lacks (see the accompanying counterexample). -/
theorem C9_shared_ops_equivalent :
    (∀ (hw : Nat) (r1 r2 r3 : SpiResp),
        (Mcp23s08async.new hw r1 r2 r3).1.map Mcp23s08async.toSync
            = (Mcp23s08.new hw r1 r2 r3).1
        ∧ (Mcp23s08async.new hw r1 r2 r3).2 = (Mcp23s08.new hw r1 r2 r3).2)
    ∧ (∀ (a : Mcp23s08async) (p : Pin) (b : Bool) (r : SpiResp),
        stepEq (a.set_pin_direction p b r) (a.toSync.set_pin_direction p b r))
    ∧ (∀ (a : Mcp23s08async) (m : Nat) (r : SpiResp),
        stepEq (a.set_port_direction m r) (a.toSync.set_port_direction m r))
    ∧ (∀ (a : Mcp23s08async) (p : Pin) (b : Bool) (r1 r2 : SpiResp),
        stepEq (a.set_pin_pullup p b r1 r2) (a.toSync.set_pin_pullup p b r1 r2))
    ∧ (∀ (a : Mcp23s08async) (m : Nat) (r : SpiResp),
        stepEq (a.set_port_pullups m r) (a.toSync.set_port_pullups m r))
    ∧ (∀ (a : Mcp23s08async) (p : Pin) (pol : Polarity) (r1 r2 : SpiResp),
        stepEq (a.set_pin_polarity p pol r1 r2) (a.toSync.set_pin_polarity p pol r1 r2))
    ∧ (∀ (a : Mcp23s08async) (r : SpiResp),
        stepEq (a.read_port r) (a.toSync.read_port r))
    ∧ (∀ (a : Mcp23s08async) (p : Pin) (r : SpiResp),
        stepEq (a.read_pin p r) (a.toSync.read_pin p r))
    ∧ (∀ (a : Mcp23s08async) (v : Nat) (r : SpiResp),
        stepEq (a.write_port v r) (a.toSync.write_port v r))
    ∧ (∀ (a : Mcp23s08async) (p : Pin) (hi : Bool) (r : SpiResp),
        stepEq (a.write_pin p hi r) (a.toSync.write_pin p hi r))
    ∧ (∀ (a : Mcp23s08async) (v : Nat) (r : SpiResp),
        stepEq (a.write_olat v r) (a.toSync.write_olat v r))
    ∧ (∀ (a : Mcp23s08async) (p : Pin) (b : Bool) (r1 r2 : SpiResp),
        stepEq (a.set_pin_interrupt_enable p b r1 r2)
          (a.toSync.set_pin_interrupt_enable p b r1 r2))
    ∧ (∀ (a : Mcp23s08async) (m : Nat) (r : SpiResp),
        stepEq (a.set_port_interrupt_enable m r) (a.toSync.set_port_interrupt_enable m r))
    ∧ (∀ (a : Mcp23s08async) (p : Pin) (md : InterruptMode) (r1 r2 : SpiResp),
        stepEq (a.set_pin_interrupt_mode p md r1 r2)
          (a.toSync.set_pin_interrupt_mode p md r1 r2)) := by
  refine ⟨?_, ?_, ?_, ?_, ?_, ?_, ?_, ?_, ?_, ?_, ?_, ?_, ?_, ?_⟩
  · intro hw r1 r2 r3
    by_cases hhw : hw > 3 <;> cases r1 <;> cases r2 <;> cases r3 <;>
      simp [Mcp23s08async.new, Mcp23s08.new, Mcp23s08async.write_reg,
        Mcp23s08.write_reg, Mcp23s08async.read_reg, Mcp23s08.read_reg,
        Mcp23s08async.opcode_write, Mcp23s08.opcode_write,
        Mcp23s08async.opcode_read, Mcp23s08.opcode_read,
        Mcp23s08async.toSync, Except.map, hhw, Nat.or_zero]
  · intro a p b r
    cases b <;> cases r <;>
      simp [stepEq, Mcp23s08async.set_pin_direction, Mcp23s08.set_pin_direction,
        Mcp23s08async.write_reg, Mcp23s08.write_reg, Mcp23s08async.toSync,
        Mcp23s08async.opcode_write, Mcp23s08.opcode_write, Nat.or_zero]
  · intro a m r
    cases r <;>
      simp [stepEq, Mcp23s08async.set_port_direction, Mcp23s08.set_port_direction,
        Mcp23s08async.write_reg, Mcp23s08.write_reg, Mcp23s08async.toSync,
        Mcp23s08async.opcode_write, Mcp23s08.opcode_write, Nat.or_zero]
  · intro a p b r1 r2
    cases r1 <;> cases r2 <;>
      simp [stepEq, Mcp23s08async.set_pin_pullup, Mcp23s08.set_pin_pullup,
        Mcp23s08async.write_reg, Mcp23s08.write_reg, Mcp23s08async.read_reg,
        Mcp23s08.read_reg, Mcp23s08async.toSync,
        Mcp23s08async.opcode_write, Mcp23s08.opcode_write,
        Mcp23s08async.opcode_read, Mcp23s08.opcode_read, Nat.or_zero]
  · intro a m r
    cases r <;>
      simp [stepEq, Mcp23s08async.set_port_pullups, Mcp23s08.set_port_pullups,
        Mcp23s08async.write_reg, Mcp23s08.write_reg, Mcp23s08async.toSync,
        Mcp23s08async.opcode_write, Mcp23s08.opcode_write, Nat.or_zero]
  · intro a p pol r1 r2
    cases pol <;> cases r1 <;> cases r2 <;>
      simp [stepEq, Mcp23s08async.set_pin_polarity, Mcp23s08.set_pin_polarity,
        Mcp23s08async.write_reg, Mcp23s08.write_reg, Mcp23s08async.read_reg,
        Mcp23s08.read_reg, Mcp23s08async.toSync,
        Mcp23s08async.opcode_write, Mcp23s08.opcode_write,
        Mcp23s08async.opcode_read, Mcp23s08.opcode_read, Nat.or_zero]
  · intro a r
    cases r <;>
      simp [stepEq, Mcp23s08async.read_port, Mcp23s08.read_port,
        Mcp23s08async.read_reg, Mcp23s08.read_reg, Mcp23s08async.toSync,
        Mcp23s08async.opcode_read, Mcp23s08.opcode_read]
  · intro a p r
    cases r <;>
      simp [stepEq, Mcp23s08async.read_pin, Mcp23s08.read_pin,
        Mcp23s08async.read_port, Mcp23s08.read_port,
        Mcp23s08async.read_reg, Mcp23s08.read_reg, Mcp23s08async.toSync,
        Mcp23s08async.opcode_read, Mcp23s08.opcode_read]
  · intro a v r
    cases r <;>
      simp [stepEq, Mcp23s08async.write_port, Mcp23s08.write_port,
        Mcp23s08async.write_reg, Mcp23s08.write_reg, Mcp23s08async.toSync,
        Mcp23s08async.opcode_write, Mcp23s08.opcode_write, Nat.or_zero]
  · intro a p hi r
    cases hi <;> cases r <;>
      simp [stepEq, Mcp23s08async.write_pin, Mcp23s08.write_pin,
        Mcp23s08async.write_reg, Mcp23s08.write_reg, Mcp23s08async.toSync,
        Mcp23s08async.opcode_write, Mcp23s08.opcode_write, Nat.or_zero]
  · intro a v r
    cases r <;>
      simp [stepEq, Mcp23s08async.write_olat, Mcp23s08.write_olat,
        Mcp23s08async.write_reg, Mcp23s08.write_reg, Mcp23s08async.toSync,
        Mcp23s08async.opcode_write, Mcp23s08.opcode_write, Nat.or_zero]
  · intro a p b r1 r2
    cases r1 <;> cases r2 <;>
      simp [stepEq, Mcp23s08async.set_pin_interrupt_enable,
        Mcp23s08.set_pin_interrupt_enable,
        Mcp23s08async.write_reg, Mcp23s08.write_reg, Mcp23s08async.read_reg,
        Mcp23s08.read_reg, Mcp23s08async.toSync,
        Mcp23s08async.opcode_write, Mcp23s08.opcode_write,
        Mcp23s08async.opcode_read, Mcp23s08.opcode_read, Nat.or_zero]
  · intro a m r
    cases r <;>
      simp [stepEq, Mcp23s08async.set_port_interrupt_enable,
        Mcp23s08.set_port_interrupt_enable,
        Mcp23s08async.write_reg, Mcp23s08.write_reg, Mcp23s08async.toSync,
        Mcp23s08async.opcode_write, Mcp23s08.opcode_write, Nat.or_zero]
  · intro a p md r1 r2
    cases md <;> cases r1 <;> cases r2 <;>
      simp [stepEq, Mcp23s08async.set_pin_interrupt_mode,
        Mcp23s08.set_pin_interrupt_mode,
        Mcp23s08async.write_reg, Mcp23s08.write_reg, Mcp23s08async.read_reg,
        Mcp23s08.read_reg, Mcp23s08async.toSync,
        Mcp23s08async.opcode_write, Mcp23s08.opcode_write,
        Mcp23s08async.opcode_read, Mcp23s08.opcode_read, Nat.or_zero]
